import Mathlib

/-!
Shallow embedding of the core of the Athena van-Leer MHD integrator
(`src/convert_var.c`, `src/integrate_3d_vl.c`), together with theorems
settling the frozen claims about it.  Machine reals are modelled by exact
fields: `ℚ` where the code is pure field arithmetic, `ℝ` where the code
takes square roots (`cfast`).  C arrays indexed `[k][j][i]` are modelled
as functions `ℤ → ℤ → ℤ → _`.
-/

/-- One-dimensional vector of conserved variables, `Cons1D` in `athena.h`
as used by `convert_var.c`: `(d,Mx,My,Mz,E,By,Bz,s[n])`.  Passive scalars
are a list.  The type is parametric so the same shape serves the exact
(`ℚ`) and the square-root (`ℝ`) developments. -/
structure Cons1D (α : Type) where
  d : α
  Mx : α
  My : α
  Mz : α
  E : α
  By : α
  Bz : α
  s : List α
deriving DecidableEq

/-- One-dimensional vector of primitive variables, `Prim1D` in `athena.h`:
`(d,Vx,Vy,Vz,P,By,Bz,r[n])`. -/
structure Prim1D (α : Type) where
  d : α
  Vx : α
  Vy : α
  Vz : α
  P : α
  By : α
  Bz : α
  r : List α
deriving DecidableEq

/-- Function `Cons1D_to_Prim1D` of `convert_var.c` (adiabatic MHD configuration):
`di = 1/d`, velocities `M*di`, pressure
`Gamma_1*(E - 0.5*|M|^2*di - 0.5*(Bx^2+By^2+Bz^2))` clamped from below,
transverse B copied, scalars `r[n] = s[n]*di`.
The clamp constant is modelled from the spec: `defs.h` is not under `src/`,
and the spec says `P` is clamped to a small positive floor `ε_P`
(`TINY_NUMBER`); it is passed here as the parameter `TINY_NUMBER`. -/
def Cons1D_to_Prim1D (Gamma_1 TINY_NUMBER : ℚ) (U : Cons1D ℚ) (Bx : ℚ) : Prim1D ℚ :=
  let di : ℚ := 1 / U.d
  { d := U.d
    Vx := U.Mx * di
    Vy := U.My * di
    Vz := U.Mz * di
    P := max (Gamma_1 * (U.E - (1/2) * (U.Mx^2 + U.My^2 + U.Mz^2) * di
              - (1/2) * (Bx^2 + U.By^2 + U.Bz^2))) TINY_NUMBER
    By := U.By
    Bz := U.Bz
    r := U.s.map (fun x => x * di) }

/-- Function `Prim1D_to_Cons1D` of `convert_var.c` (adiabatic MHD configuration):
momenta `d*V`, energy `P/Gamma_1 + 0.5*d*|V|^2 + 0.5*(Bx^2+By^2+Bz^2)`,
transverse B copied, scalars `s[n] = r[n]*d`. -/
def Prim1D_to_Cons1D (Gamma_1 : ℚ) (W : Prim1D ℚ) (Bx : ℚ) : Cons1D ℚ :=
  { d := W.d
    Mx := W.d * W.Vx
    My := W.d * W.Vy
    Mz := W.d * W.Vz
    E := W.P / Gamma_1 + (1/2) * W.d * (W.Vx^2 + W.Vy^2 + W.Vz^2)
         + (1/2) * (Bx^2 + W.By^2 + W.Bz^2)
    By := W.By
    Bz := W.Bz
    s := W.r.map (fun x => x * W.d) }

/-- Loop-bound package of `integrate_3d_vl` (`ib..it`, `jb..jt`, `kb..kt`
are the widest loop limits set from the reconstruction order). -/
structure CTBounds where
  ib : ℤ
  it : ℤ
  jb : ℤ
  jt : ℤ
  kb : ℤ
  kt : ℤ

/-- Index set over which Step 11 of `integrate_3d_vl` advances `B1i`:
the main triple loop covers `kb+1..kt-1`, `jb+1..jt-1`, `ib+1..it-1`,
and a separate statement covers the extra column `i = it`. -/
abbrev inB1iWindow (b : CTBounds) (k j i : ℤ) : Prop :=
  (b.kb + 1 ≤ k ∧ k ≤ b.kt - 1) ∧ (b.jb + 1 ≤ j ∧ j ≤ b.jt - 1) ∧
  (b.ib + 1 ≤ i ∧ i ≤ b.it)

/-- Index set over which Step 11 advances `B2i`: the main triple loop plus
the extra row `j = jt`. -/
abbrev inB2iWindow (b : CTBounds) (k j i : ℤ) : Prop :=
  (b.kb + 1 ≤ k ∧ k ≤ b.kt - 1) ∧ (b.jb + 1 ≤ j ∧ j ≤ b.jt) ∧
  (b.ib + 1 ≤ i ∧ i ≤ b.it - 1)

/-- Index set over which Step 11 advances `B3i`: the main triple loop plus
the extra plane `k = kt`. -/
abbrev inB3iWindow (b : CTBounds) (k j i : ℤ) : Prop :=
  (b.kb + 1 ≤ k ∧ k ≤ b.kt) ∧ (b.jb + 1 ≤ j ∧ j ≤ b.jt - 1) ∧
  (b.ib + 1 ≤ i ∧ i ≤ b.it - 1)

/-- Step 11 full-step CT update of `B1i` in `integrate_3d_vl`:
`B1i += dtodx3*(emf2[k+1][j][i]-emf2[k][j][i]) - dtodx2*(emf3[k][j+1][i]-emf3[k][j][i])`
with `dtodx2 = dt/dx2`, `dtodx3 = dt/dx3`, applied on the `B1i` window and
leaving all other entries unchanged. -/
def step11B1i (b : CTBounds) (dt dx2 dx3 : ℚ) (e2 e3 B1i : ℤ → ℤ → ℤ → ℚ)
    (k j i : ℤ) : ℚ :=
  if inB1iWindow b k j i then
    B1i k j i + (dt / dx3) * (e2 (k+1) j i - e2 k j i)
              - (dt / dx2) * (e3 k (j+1) i - e3 k j i)
  else B1i k j i

/-- Step 11 full-step CT update of `B2i`:
`B2i += dtodx1*(emf3[k][j][i+1]-emf3[k][j][i]) - dtodx3*(emf1[k+1][j][i]-emf1[k][j][i])`. -/
def step11B2i (b : CTBounds) (dt dx1 dx3 : ℚ) (e1 e3 B2i : ℤ → ℤ → ℤ → ℚ)
    (k j i : ℤ) : ℚ :=
  if inB2iWindow b k j i then
    B2i k j i + (dt / dx1) * (e3 k j (i+1) - e3 k j i)
              - (dt / dx3) * (e1 (k+1) j i - e1 k j i)
  else B2i k j i

/-- Step 11 full-step CT update of `B3i`:
`B3i += dtodx2*(emf1[k][j+1][i]-emf1[k][j][i]) - dtodx1*(emf2[k][j][i+1]-emf2[k][j][i])`. -/
def step11B3i (b : CTBounds) (dt dx1 dx2 : ℚ) (e1 e2 B3i : ℤ → ℤ → ℤ → ℚ)
    (k j i : ℤ) : ℚ :=
  if inB3iWindow b k j i then
    B3i k j i + (dt / dx2) * (e1 k (j+1) i - e1 k j i)
              - (dt / dx1) * (e2 k j (i+1) - e2 k j i)
  else B3i k j i

/-- Discrete divergence of the face-centred field over cell `(k,j,i)`:
`(B1i[k][j][i+1]-B1i[k][j][i])/dx1 + (B2i[k][j+1][i]-B2i[k][j][i])/dx2 +
 (B3i[k+1][j][i]-B3i[k][j][i])/dx3`. -/
def divB (dx1 dx2 dx3 : ℚ) (B1i B2i B3i : ℤ → ℤ → ℤ → ℚ) (k j i : ℤ) : ℚ :=
  (B1i k j (i+1) - B1i k j i) / dx1 + (B2i k (j+1) i - B2i k j i) / dx2 +
  (B3i (k+1) j i - B3i k j i) / dx3

/-- Upwind correction `de1_l3` of `integrate_emf1_corner`, selected by the
sign of `x2Flux[k-1][j][i].d`. -/
def de1_l3 (x2Flux x3Flux : ℤ → ℤ → ℤ → Cons1D ℚ) (emf1_cc : ℤ → ℤ → ℤ → ℚ)
    (k j i : ℤ) : ℚ :=
  if (x2Flux (k-1) j i).d > 0 then (x3Flux k (j-1) i).Bz - emf1_cc (k-1) (j-1) i
  else if (x2Flux (k-1) j i).d < 0 then (x3Flux k j i).Bz - emf1_cc (k-1) j i
  else (1/2) * ((x3Flux k (j-1) i).Bz - emf1_cc (k-1) (j-1) i +
                (x3Flux k j i).Bz - emf1_cc (k-1) j i)

/-- Upwind correction `de1_r3` of `integrate_emf1_corner`, selected by the
sign of `x2Flux[k][j][i].d`. -/
def de1_r3 (x2Flux x3Flux : ℤ → ℤ → ℤ → Cons1D ℚ) (emf1_cc : ℤ → ℤ → ℤ → ℚ)
    (k j i : ℤ) : ℚ :=
  if (x2Flux k j i).d > 0 then (x3Flux k (j-1) i).Bz - emf1_cc k (j-1) i
  else if (x2Flux k j i).d < 0 then (x3Flux k j i).Bz - emf1_cc k j i
  else (1/2) * ((x3Flux k (j-1) i).Bz - emf1_cc k (j-1) i +
                (x3Flux k j i).Bz - emf1_cc k j i)

/-- Upwind correction `de1_l2` of `integrate_emf1_corner`, selected by the
sign of `x3Flux[k][j-1][i].d`. -/
def de1_l2 (x2Flux x3Flux : ℤ → ℤ → ℤ → Cons1D ℚ) (emf1_cc : ℤ → ℤ → ℤ → ℚ)
    (k j i : ℤ) : ℚ :=
  if (x3Flux k (j-1) i).d > 0 then -(x2Flux (k-1) j i).By - emf1_cc (k-1) (j-1) i
  else if (x3Flux k (j-1) i).d < 0 then -(x2Flux k j i).By - emf1_cc k (j-1) i
  else (1/2) * (-(x2Flux (k-1) j i).By - emf1_cc (k-1) (j-1) i
                - (x2Flux k j i).By - emf1_cc k (j-1) i)

/-- Upwind correction `de1_r2` of `integrate_emf1_corner`, selected by the
sign of `x3Flux[k][j][i].d`. -/
def de1_r2 (x2Flux x3Flux : ℤ → ℤ → ℤ → Cons1D ℚ) (emf1_cc : ℤ → ℤ → ℤ → ℚ)
    (k j i : ℤ) : ℚ :=
  if (x3Flux k j i).d > 0 then -(x2Flux (k-1) j i).By - emf1_cc (k-1) j i
  else if (x3Flux k j i).d < 0 then -(x2Flux k j i).By - emf1_cc k j i
  else (1/2) * (-(x2Flux (k-1) j i).By - emf1_cc (k-1) j i
                - (x2Flux k j i).By - emf1_cc k j i)

/-- Corner EMF `emf1[k][j][i]` assembled by `integrate_emf1_corner`. -/
def emf1Corner (x2Flux x3Flux : ℤ → ℤ → ℤ → Cons1D ℚ) (emf1_cc : ℤ → ℤ → ℤ → ℚ)
    (k j i : ℤ) : ℚ :=
  (1/4) * ((x3Flux k j i).Bz + (x3Flux k (j-1) i).Bz
           - (x2Flux k j i).By - (x2Flux (k-1) j i).By
           + de1_l2 x2Flux x3Flux emf1_cc k j i + de1_r2 x2Flux x3Flux emf1_cc k j i
           + de1_l3 x2Flux x3Flux emf1_cc k j i + de1_r3 x2Flux x3Flux emf1_cc k j i)

/-- Upwind correction `de2_l3` of `integrate_emf2_corner`, selected by the
sign of `x1Flux[k-1][j][i].d`. -/
def de2_l3 (x1Flux x3Flux : ℤ → ℤ → ℤ → Cons1D ℚ) (emf2_cc : ℤ → ℤ → ℤ → ℚ)
    (k j i : ℤ) : ℚ :=
  if (x1Flux (k-1) j i).d > 0 then -(x3Flux k j (i-1)).By - emf2_cc (k-1) j (i-1)
  else if (x1Flux (k-1) j i).d < 0 then -(x3Flux k j i).By - emf2_cc (k-1) j i
  else (1/2) * (-(x3Flux k j (i-1)).By - emf2_cc (k-1) j (i-1)
                - (x3Flux k j i).By - emf2_cc (k-1) j i)

/-- Upwind correction `de2_r3` of `integrate_emf2_corner`, selected by the
sign of `x1Flux[k][j][i].d`. -/
def de2_r3 (x1Flux x3Flux : ℤ → ℤ → ℤ → Cons1D ℚ) (emf2_cc : ℤ → ℤ → ℤ → ℚ)
    (k j i : ℤ) : ℚ :=
  if (x1Flux k j i).d > 0 then -(x3Flux k j (i-1)).By - emf2_cc k j (i-1)
  else if (x1Flux k j i).d < 0 then -(x3Flux k j i).By - emf2_cc k j i
  else (1/2) * (-(x3Flux k j (i-1)).By - emf2_cc k j (i-1)
                - (x3Flux k j i).By - emf2_cc k j i)

/-- Upwind correction `de2_l1` of `integrate_emf2_corner`, selected by the
sign of `x3Flux[k][j][i-1].d`. -/
def de2_l1 (x1Flux x3Flux : ℤ → ℤ → ℤ → Cons1D ℚ) (emf2_cc : ℤ → ℤ → ℤ → ℚ)
    (k j i : ℤ) : ℚ :=
  if (x3Flux k j (i-1)).d > 0 then (x1Flux (k-1) j i).Bz - emf2_cc (k-1) j (i-1)
  else if (x3Flux k j (i-1)).d < 0 then (x1Flux k j i).Bz - emf2_cc k j (i-1)
  else (1/2) * ((x1Flux (k-1) j i).Bz - emf2_cc (k-1) j (i-1) +
                (x1Flux k j i).Bz - emf2_cc k j (i-1))

/-- Upwind correction `de2_r1` of `integrate_emf2_corner`, selected by the
sign of `x3Flux[k][j][i].d`.  NOTE: the source's zero-flux branch
(line 1211) subtracts `emf2_cc[k-1][j][i]` in BOTH summands, transcribed
here verbatim. -/
def de2_r1 (x1Flux x3Flux : ℤ → ℤ → ℤ → Cons1D ℚ) (emf2_cc : ℤ → ℤ → ℤ → ℚ)
    (k j i : ℤ) : ℚ :=
  if (x3Flux k j i).d > 0 then (x1Flux (k-1) j i).Bz - emf2_cc (k-1) j i
  else if (x3Flux k j i).d < 0 then (x1Flux k j i).Bz - emf2_cc k j i
  else (1/2) * ((x1Flux (k-1) j i).Bz - emf2_cc (k-1) j i +
                (x1Flux k j i).Bz - emf2_cc (k-1) j i)

/-- Corner EMF `emf2[k][j][i]` assembled by `integrate_emf2_corner`. -/
def emf2Corner (x1Flux x3Flux : ℤ → ℤ → ℤ → Cons1D ℚ) (emf2_cc : ℤ → ℤ → ℤ → ℚ)
    (k j i : ℤ) : ℚ :=
  (1/4) * ((x1Flux k j i).Bz + (x1Flux (k-1) j i).Bz
           - (x3Flux k j i).By - (x3Flux k j (i-1)).By
           + de2_l1 x1Flux x3Flux emf2_cc k j i + de2_r1 x1Flux x3Flux emf2_cc k j i
           + de2_l3 x1Flux x3Flux emf2_cc k j i + de2_r3 x1Flux x3Flux emf2_cc k j i)

/-- Upwind correction `de3_l2` of `integrate_emf3_corner`, selected by the
sign of `x1Flux[k][j-1][i].d`. -/
def de3_l2 (x1Flux x2Flux : ℤ → ℤ → ℤ → Cons1D ℚ) (emf3_cc : ℤ → ℤ → ℤ → ℚ)
    (k j i : ℤ) : ℚ :=
  if (x1Flux k (j-1) i).d > 0 then (x2Flux k j (i-1)).Bz - emf3_cc k (j-1) (i-1)
  else if (x1Flux k (j-1) i).d < 0 then (x2Flux k j i).Bz - emf3_cc k (j-1) i
  else (1/2) * ((x2Flux k j (i-1)).Bz - emf3_cc k (j-1) (i-1) +
                (x2Flux k j i).Bz - emf3_cc k (j-1) i)

/-- Upwind correction `de3_r2` of `integrate_emf3_corner`, selected by the
sign of `x1Flux[k][j][i].d`. -/
def de3_r2 (x1Flux x2Flux : ℤ → ℤ → ℤ → Cons1D ℚ) (emf3_cc : ℤ → ℤ → ℤ → ℚ)
    (k j i : ℤ) : ℚ :=
  if (x1Flux k j i).d > 0 then (x2Flux k j (i-1)).Bz - emf3_cc k j (i-1)
  else if (x1Flux k j i).d < 0 then (x2Flux k j i).Bz - emf3_cc k j i
  else (1/2) * ((x2Flux k j (i-1)).Bz - emf3_cc k j (i-1) +
                (x2Flux k j i).Bz - emf3_cc k j i)

/-- Upwind correction `de3_l1` of `integrate_emf3_corner`, selected by the
sign of `x2Flux[k][j][i-1].d`. -/
def de3_l1 (x1Flux x2Flux : ℤ → ℤ → ℤ → Cons1D ℚ) (emf3_cc : ℤ → ℤ → ℤ → ℚ)
    (k j i : ℤ) : ℚ :=
  if (x2Flux k j (i-1)).d > 0 then -(x1Flux k (j-1) i).By - emf3_cc k (j-1) (i-1)
  else if (x2Flux k j (i-1)).d < 0 then -(x1Flux k j i).By - emf3_cc k j (i-1)
  else (1/2) * (-(x1Flux k (j-1) i).By - emf3_cc k (j-1) (i-1)
                - (x1Flux k j i).By - emf3_cc k j (i-1))

/-- Upwind correction `de3_r1` of `integrate_emf3_corner`, selected by the
sign of `x2Flux[k][j][i].d`. -/
def de3_r1 (x1Flux x2Flux : ℤ → ℤ → ℤ → Cons1D ℚ) (emf3_cc : ℤ → ℤ → ℤ → ℚ)
    (k j i : ℤ) : ℚ :=
  if (x2Flux k j i).d > 0 then -(x1Flux k (j-1) i).By - emf3_cc k (j-1) i
  else if (x2Flux k j i).d < 0 then -(x1Flux k j i).By - emf3_cc k j i
  else (1/2) * (-(x1Flux k (j-1) i).By - emf3_cc k (j-1) i
                - (x1Flux k j i).By - emf3_cc k j i)

/-- Corner EMF `emf3[k][j][i]` assembled by `integrate_emf3_corner`. -/
def emf3Corner (x1Flux x2Flux : ℤ → ℤ → ℤ → Cons1D ℚ) (emf3_cc : ℤ → ℤ → ℤ → ℚ)
    (k j i : ℤ) : ℚ :=
  (1/4) * ((x2Flux k j (i-1)).Bz + (x2Flux k j i).Bz
           - (x1Flux k (j-1) i).By - (x1Flux k j i).By
           + de3_l1 x1Flux x2Flux emf3_cc k j i + de3_r1 x1Flux x2Flux emf3_cc k j i
           + de3_l2 x1Flux x2Flux emf3_cc k j i + de3_r2 x1Flux x2Flux emf3_cc k j i)

/-- All-zero flux array (every component of every interface flux is 0),
used as a concrete input exhibiting the `de2_r1` zero-flux branch. -/
def fluxArrZero : ℤ → ℤ → ℤ → Cons1D ℚ :=
  fun _ _ _ => ⟨0, 0, 0, 0, 0, 0, 0, []⟩

/-- Concrete cell-centred reference EMF array: 1 on the plane `k = 0` and 0
elsewhere, so the upwind (`k-1`) and downwind (`k`) reference EMFs differ
at the corner `(0,0,0)`. -/
def emf2ccStep : ℤ → ℤ → ℤ → ℚ :=
  fun k _ _ => if k = 0 then 1 else 0

/-- Function `cfast` of `convert_var.c`, adiabatic MHD configuration:
`pb = 0.5*(Bx^2+By^2+Bz^2)`, `p = Gamma_1*(E - pb - 0.5*|M|^2/d)`,
`asq = Gamma*p/d`, `ctsq = (By^2+Bz^2)/d`, `casq = Bx^2/d`,
`tmp = casq+ctsq-asq`, and the returned value is
`sqrt(0.5*((asq+ctsq+casq) + sqrt(tmp*tmp + 4*asq*ctsq)))`. -/
noncomputable def cfast_adb_mhd (Gamma Gamma_1 : ℝ) (U : Cons1D ℝ) (Bx : ℝ) : ℝ :=
  let pb := (1/2) * (Bx^2 + U.By^2 + U.Bz^2)
  let p := Gamma_1 * (U.E - pb - (1/2) * (U.Mx^2 + U.My^2 + U.Mz^2) / U.d)
  let asq := Gamma * p / U.d
  let ctsq := (U.By^2 + U.Bz^2) / U.d
  let casq := Bx^2 / U.d
  let tmp := casq + ctsq - asq
  Real.sqrt ((1/2) * ((asq + ctsq + casq) + Real.sqrt (tmp * tmp + 4 * asq * ctsq)))

/-- Function `cfast` of `convert_var.c`, adiabatic hydrodynamic configuration
(no MHD): `pb = 0`, `p = Gamma_1*(E - pb - 0.5*|M|^2/d)` and the returned
value is `sqrt(Gamma*p/d)`. -/
noncomputable def cfast_adb_hydro (Gamma Gamma_1 : ℝ) (U : Cons1D ℝ) : ℝ :=
  let pb := (0 : ℝ)
  let p := Gamma_1 * (U.E - pb - (1/2) * (U.Mx^2 + U.My^2 + U.Mz^2) / U.d)
  Real.sqrt (Gamma * p / U.d)

/-- Function `cfast` of `convert_var.c`, isothermal MHD configuration:
`asq = Iso_csound2` and otherwise the same fast-speed expression as the
adiabatic MHD case. -/
noncomputable def cfast_iso_mhd (Iso_csound2 : ℝ) (U : Cons1D ℝ) (Bx : ℝ) : ℝ :=
  let asq := Iso_csound2
  let ctsq := (U.By^2 + U.Bz^2) / U.d
  let casq := Bx^2 / U.d
  let tmp := casq + ctsq - asq
  Real.sqrt ((1/2) * ((asq + ctsq + casq) + Real.sqrt (tmp * tmp + 4 * asq * ctsq)))

/-- Function `cfast` of `convert_var.c`, isothermal hydrodynamic configuration:
returns `sqrt(Iso_csound2)`. -/
noncomputable def cfast_iso_hydro (Iso_csound2 : ℝ) (U : Cons1D ℝ) : ℝ :=
  Real.sqrt Iso_csound2

/-- Fast-speed formula exactly as the spec words it, for the refinement
comparison with `cfast_adb_mhd`:
`c_f = sqrt(1/2*[(a^2+b^2+b_perp^2) + sqrt((a^2+b^2+b_perp^2)^2 - 4*a^2*b_perp^2)])`
with `a^2 = gamma*P/rho`, `b^2 = Bx^2/rho`, `b_perp^2 = (By^2+Bz^2)/rho`,
and `P` the gas pressure derived from `U`. -/
noncomputable def fast_speed_spec_mhd (Gamma Gamma_1 : ℝ) (U : Cons1D ℝ) (Bx : ℝ) : ℝ :=
  let P := Gamma_1 * (U.E - (1/2) * (Bx^2 + U.By^2 + U.Bz^2)
           - (1/2) * (U.Mx^2 + U.My^2 + U.Mz^2) / U.d)
  let asq := Gamma * P / U.d
  let bsq := Bx^2 / U.d
  let bperpsq := (U.By^2 + U.Bz^2) / U.d
  Real.sqrt ((1/2) * ((asq + bsq + bperpsq)
    + Real.sqrt ((asq + bsq + bperpsq)^2 - 4 * asq * bperpsq)))

/-- Fast-speed formula with the discriminant the code actually realises:
as `fast_speed_spec_mhd` but with `- 4*a^2*b^2` (the squared Alfven speed
of the normal component `Bx`) under the inner square root. -/
noncomputable def fast_speed_amended_mhd (Gamma Gamma_1 : ℝ) (U : Cons1D ℝ) (Bx : ℝ) : ℝ :=
  let P := Gamma_1 * (U.E - (1/2) * (Bx^2 + U.By^2 + U.Bz^2)
           - (1/2) * (U.Mx^2 + U.My^2 + U.Mz^2) / U.d)
  let asq := Gamma * P / U.d
  let bsq := Bx^2 / U.d
  let bperpsq := (U.By^2 + U.Bz^2) / U.d
  Real.sqrt ((1/2) * ((asq + bsq + bperpsq)
    + Real.sqrt ((asq + bsq + bperpsq)^2 - 4 * asq * bsq)))

/-- Isothermal-MHD counterpart of `fast_speed_amended_mhd`: `a^2` is the
constant `Iso_csound2`. -/
noncomputable def fast_speed_amended_iso_mhd (Iso_csound2 : ℝ) (U : Cons1D ℝ) (Bx : ℝ) : ℝ :=
  let asq := Iso_csound2
  let bsq := Bx^2 / U.d
  let bperpsq := (U.By^2 + U.Bz^2) / U.d
  Real.sqrt ((1/2) * ((asq + bsq + bperpsq)
    + Real.sqrt ((asq + bsq + bperpsq)^2 - 4 * asq * bsq)))

/-- Concrete loop bounds for evaluating the CT update on a small block. -/
def bWit : CTBounds := ⟨0, 4, 0, 4, 0, 4⟩

/-- All-zero scalar array. -/
def arrZero : ℤ → ℤ → ℤ → ℚ := fun _ _ _ => 0

/-- Concrete primitive state with `d > 0` and `0 < P` but `P` below the
pressure floor used alongside it. -/
def Wlow : Prim1D ℚ := ⟨1, 0, 0, 0, 1/2, 0, 0, []⟩

/-- Concrete primitive state for evaluating the round trip. -/
def Wwit : Prim1D ℚ := ⟨2, 1, 0, 0, 3, 1, 1, [2]⟩

/-- Concrete conserved state for evaluating the round trip. -/
def Uwit : Cons1D ℚ := ⟨2, 2, 0, 0, 10, 1, 0, [3]⟩

/-- Concrete conserved state (`d = 1`, `E = 3`, `M = B_perp = 0`) for
evaluating `cfast`. -/
def Ucf : Cons1D ℝ := ⟨1, 0, 0, 0, 3, 0, 0, []⟩

/-- Rearrangement behind the fast-speed formula: the discriminant the code
computes, `(b^2+c^2-a^2)^2 + 4a^2c^2`, equals `(a^2+b^2+c^2)^2 - 4a^2b^2`
(with `A = a^2`, `B = b^2`, `C = c^2`). -/
theorem fast_sqrt_rearrange (A B C : ℝ) :
    Real.sqrt ((1/2) * ((A + C + B) + Real.sqrt ((B + C - A) * (B + C - A) + 4 * A * C))) =
    Real.sqrt ((1/2) * ((A + B + C) + Real.sqrt ((A + B + C)^2 - 4 * A * B))) := by
  rw [show (B + C - A) * (B + C - A) + 4 * A * C = (A + B + C)^2 - 4 * A * B from by ring,
      show A + C + B = A + B + C from by ring]

/-- C1: if all six faces bounding cell `(k,j,i)` are advanced by the Step 11
full-step CT update of `integrate_3d_vl`, the discrete divergence
`(B1i[k][j][i+1]-B1i[k][j][i])/dx1 + (B2i[k][j+1][i]-B2i[k][j][i])/dx2 +
(B3i[k+1][j][i]-B3i[k][j][i])/dx3` after the update equals its value
before the update; in particular zero divergence is preserved. -/
theorem ct_step11_preserves_divB (b : CTBounds) (dt dx1 dx2 dx3 : ℚ)
    (B1i B2i B3i e1 e2 e3 : ℤ → ℤ → ℤ → ℚ) (k j i : ℤ)
    (h1l : inB1iWindow b k j i) (h1r : inB1iWindow b k j (i+1))
    (h2l : inB2iWindow b k j i) (h2r : inB2iWindow b k (j+1) i)
    (h3l : inB3iWindow b k j i) (h3r : inB3iWindow b (k+1) j i) :
    divB dx1 dx2 dx3 (step11B1i b dt dx2 dx3 e2 e3 B1i)
        (step11B2i b dt dx1 dx3 e1 e3 B2i) (step11B3i b dt dx1 dx2 e1 e2 B3i) k j i
      = divB dx1 dx2 dx3 B1i B2i B3i k j i ∧
    (divB dx1 dx2 dx3 B1i B2i B3i k j i = 0 →
      divB dx1 dx2 dx3 (step11B1i b dt dx2 dx3 e2 e3 B1i)
        (step11B2i b dt dx1 dx3 e1 e3 B2i) (step11B3i b dt dx1 dx2 e1 e2 B3i) k j i = 0) := by
  have heq : divB dx1 dx2 dx3 (step11B1i b dt dx2 dx3 e2 e3 B1i)
      (step11B2i b dt dx1 dx3 e1 e3 B2i) (step11B3i b dt dx1 dx2 e1 e2 B3i) k j i
      = divB dx1 dx2 dx3 B1i B2i B3i k j i := by
    simp only [divB, step11B1i, step11B2i, step11B3i]
    rw [if_pos h1r, if_pos h1l, if_pos h2r, if_pos h2l, if_pos h3r, if_pos h3l]
    ring
  exact ⟨heq, fun h0 => heq.trans h0⟩

/-- Evaluation of `ct_step11_preserves_divB` at concrete bounds, cell
`(1,1,1)` and concrete field/EMF arrays, with every hypothesis discharged
by computation. -/
theorem ct_step11_preserves_divB_witness :
    (inB1iWindow bWit 1 1 1 ∧ inB1iWindow bWit 1 1 2 ∧
     inB2iWindow bWit 1 1 1 ∧ inB2iWindow bWit 1 2 1 ∧
     inB3iWindow bWit 1 1 1 ∧ inB3iWindow bWit 2 1 1) ∧
    (divB 1 1 1 (step11B1i bWit 1 1 1 arrZero arrZero arrZero)
        (step11B2i bWit 1 1 1 arrZero arrZero arrZero)
        (step11B3i bWit 1 1 1 arrZero arrZero arrZero) 1 1 1
      = divB 1 1 1 arrZero arrZero arrZero 1 1 1 ∧
     (divB 1 1 1 arrZero arrZero arrZero 1 1 1 = 0 →
      divB 1 1 1 (step11B1i bWit 1 1 1 arrZero arrZero arrZero)
        (step11B2i bWit 1 1 1 arrZero arrZero arrZero)
        (step11B3i bWit 1 1 1 arrZero arrZero arrZero) 1 1 1 = 0)) :=
  ⟨⟨by decide, by decide, by decide, by decide, by decide, by decide⟩,
   ct_step11_preserves_divB bWit 1 1 1 1 arrZero arrZero arrZero arrZero arrZero arrZero
     1 1 1 (by decide) (by decide) (by decide) (by decide) (by decide) (by decide)⟩

/-- C4 (amended): with `γ-1 ≠ 0`, the conversions of `convert_var.c` are
mutually inverse on states at or above the pressure floor: for `W` with
`d > 0` and `P ≥ ε_P`, `Cons1D_to_Prim1D (Prim1D_to_Cons1D W) = W`; and
for `U` with `d > 0` whose derived pressure is `≥ ε_P`,
`Prim1D_to_Cons1D (Cons1D_to_Prim1D U) = U`. -/
theorem prim_cons_roundtrip (Gamma_1 eP Bx : ℚ) (W : Prim1D ℚ) (U : Cons1D ℚ)
    (hG : Gamma_1 ≠ 0) (hWd : 0 < W.d) (hWP : eP ≤ W.P) (hUd : 0 < U.d)
    (hUP : eP ≤ Gamma_1 * (U.E - (1/2) * (U.Mx^2 + U.My^2 + U.Mz^2) * (1 / U.d)
            - (1/2) * (Bx^2 + U.By^2 + U.Bz^2))) :
    Cons1D_to_Prim1D Gamma_1 eP (Prim1D_to_Cons1D Gamma_1 W Bx) Bx = W ∧
    Prim1D_to_Cons1D Gamma_1 (Cons1D_to_Prim1D Gamma_1 eP U Bx) Bx = U := by
  constructor
  · obtain ⟨d, Vx, Vy, Vz, P, Byy, Bzz, r⟩ := W
    dsimp only at hWd hWP
    have hd : d ≠ 0 := ne_of_gt hWd
    simp only [Prim1D_to_Cons1D, Cons1D_to_Prim1D, Prim1D.mk.injEq]
    refine ⟨trivial, by field_simp, by field_simp, by field_simp, ?_, trivial, trivial, ?_⟩
    · have hX : Gamma_1 * (P / Gamma_1 + 1 / 2 * d * (Vx ^ 2 + Vy ^ 2 + Vz ^ 2)
          + 1 / 2 * (Bx ^ 2 + Byy ^ 2 + Bzz ^ 2)
          - 1 / 2 * ((d * Vx) ^ 2 + (d * Vy) ^ 2 + (d * Vz) ^ 2) * (1 / d)
          - 1 / 2 * (Bx ^ 2 + Byy ^ 2 + Bzz ^ 2)) = P := by
        field_simp
        ring
      rw [hX]
      exact max_eq_left hWP
    · rw [List.map_map]
      have hfun : ((fun x => x * (1 / d)) ∘ fun x => x * d) = id := by
        funext x
        simp only [Function.comp_apply, id_eq]
        field_simp
      rw [hfun, List.map_id]
  · obtain ⟨d, Mx, My, Mz, E, Byy, Bzz, s⟩ := U
    dsimp only at hUd hUP
    have hd : d ≠ 0 := ne_of_gt hUd
    simp only [Cons1D_to_Prim1D, Prim1D_to_Cons1D, Cons1D.mk.injEq]
    refine ⟨trivial, by field_simp, by field_simp, by field_simp, ?_, trivial, trivial, ?_⟩
    · rw [max_eq_left hUP]
      field_simp
      ring
    · rw [List.map_map]
      have hfun : ((fun x => x * d) ∘ fun x => x * (1 / d)) = id := by
        funext x
        simp only [Function.comp_apply, id_eq]
        field_simp
      rw [hfun, List.map_id]

/-- Evaluation of `prim_cons_roundtrip` at `γ-1 = 1`, floor `ε_P = 1`,
`Bx = 1`, and the concrete states `Wwit`, `Uwit`. -/
theorem prim_cons_roundtrip_witness :
    ((1:ℚ) ≠ 0 ∧ 0 < Wwit.d ∧ (1:ℚ) ≤ Wwit.P ∧ 0 < Uwit.d ∧
     (1:ℚ) ≤ 1 * (Uwit.E - (1/2) * (Uwit.Mx^2 + Uwit.My^2 + Uwit.Mz^2) * (1 / Uwit.d)
            - (1/2) * (1^2 + Uwit.By^2 + Uwit.Bz^2))) ∧
    (Cons1D_to_Prim1D 1 1 (Prim1D_to_Cons1D 1 Wwit 1) 1 = Wwit ∧
     Prim1D_to_Cons1D 1 (Cons1D_to_Prim1D 1 1 Uwit 1) 1 = Uwit) :=
  ⟨⟨by norm_num, by norm_num [Wwit], by norm_num [Wwit], by norm_num [Uwit],
    by norm_num [Uwit]⟩,
   prim_cons_roundtrip 1 1 1 Wwit Uwit (by norm_num) (by norm_num [Wwit])
     (by norm_num [Wwit]) (by norm_num [Uwit]) (by norm_num [Uwit])⟩

/-- C4 fails as stated: the primitive state `Wlow` has `d > 0` and `P > 0`,
yet (with `γ-1 = 1` and pressure floor `ε_P = 1 > P`) the conversion round
trip returns a different state — the clamp raises `P` to the floor. -/
theorem prim_cons_roundtrip_counterexample :
    0 < Wlow.d ∧ 0 < Wlow.P ∧
    Cons1D_to_Prim1D 1 1 (Prim1D_to_Cons1D 1 Wlow 0) 0 ≠ Wlow := by
  refine ⟨by norm_num [Wlow], by norm_num [Wlow], ?_⟩
  simp only [Wlow, Prim1D_to_Cons1D, Cons1D_to_Prim1D, ne_eq, Prim1D.mk.injEq]
  norm_num

/-- C3 fails on the code at `de2_r1`: at corner `(0,0,0)` with every flux
zero (so the selecting mass flux `x3Flux[k][j][i].d` is exactly zero) and
reference EMFs `emf2_cc[-1][0][0] = 0`, `emf2_cc[0][0][0] = 1`, the code's
`de2_r1` is not the arithmetic average of the upwind difference
`x1Flux[k-1][j][i].Bz - emf2_cc[k-1][j][i]` and the downwind difference
`x1Flux[k][j][i].Bz - emf2_cc[k][j][i]`: the source's zero-flux branch
(line 1211) subtracts the upwind reference EMF in both summands. -/
theorem de2_r1_zero_flux_divergence :
    (fluxArrZero 0 0 0).d = 0 ∧
    de2_r1 fluxArrZero fluxArrZero emf2ccStep 0 0 0 ≠
      (1/2) * (((fluxArrZero (-1) 0 0).Bz - emf2ccStep (-1) 0 0)
             + ((fluxArrZero 0 0 0).Bz - emf2ccStep 0 0 0)) := by
  constructor
  · norm_num [fluxArrZero]
  · norm_num [de2_r1, fluxArrZero, emf2ccStep]

/-- C2 (amended): for every conserved state with `d > 0`, `cfast` returns,
under MHD, `sqrt(1/2*[(a^2+b^2+b_perp^2) + sqrt((a^2+b^2+b_perp^2)^2
- 4*a^2*b^2)])` with `a^2 = γP/ρ`, `b^2 = Bx^2/ρ`, `b_perp^2 =
(By^2+Bz^2)/ρ` (the discriminant subtracts `4a^2b^2`, the normal-component
Alfven term, not `4a^2b_perp^2`); without MHD it returns `sqrt(a^2)`; in
the isothermal case `a^2` is the constant `Iso_csound2`. -/
theorem cfast_eq_fast_speed (Gamma Gamma_1 Iso_csound2 : ℝ) (U : Cons1D ℝ) (Bx : ℝ)
    (hd : 0 < U.d) :
    cfast_adb_mhd Gamma Gamma_1 U Bx = fast_speed_amended_mhd Gamma Gamma_1 U Bx ∧
    cfast_adb_hydro Gamma Gamma_1 U =
      Real.sqrt (Gamma * (Gamma_1 * (U.E - 0
        - (1/2) * (U.Mx^2 + U.My^2 + U.Mz^2) / U.d)) / U.d) ∧
    cfast_iso_mhd Iso_csound2 U Bx = fast_speed_amended_iso_mhd Iso_csound2 U Bx ∧
    cfast_iso_hydro Iso_csound2 U = Real.sqrt Iso_csound2 := by
  refine ⟨?_, rfl, ?_, rfl⟩
  · simp only [cfast_adb_mhd, fast_speed_amended_mhd]
    exact fast_sqrt_rearrange _ _ _
  · simp only [cfast_iso_mhd, fast_speed_amended_iso_mhd]
    exact fast_sqrt_rearrange _ _ _

/-- Evaluation of `cfast_eq_fast_speed` at `γ = 2`, `γ-1 = 1`,
`Iso_csound2 = 1`, the concrete state `Ucf` and `Bx = 2`. -/
theorem cfast_eq_fast_speed_witness :
    (0:ℝ) < Ucf.d ∧
    (cfast_adb_mhd 2 1 Ucf 2 = fast_speed_amended_mhd 2 1 Ucf 2 ∧
     cfast_adb_hydro 2 1 Ucf =
       Real.sqrt (2 * (1 * (Ucf.E - 0
         - (1/2) * (Ucf.Mx^2 + Ucf.My^2 + Ucf.Mz^2) / Ucf.d)) / Ucf.d) ∧
     cfast_iso_mhd 1 Ucf 2 = fast_speed_amended_iso_mhd 1 Ucf 2 ∧
     cfast_iso_hydro 1 Ucf = Real.sqrt 1) :=
  ⟨by norm_num [Ucf], cfast_eq_fast_speed 2 1 1 Ucf 2 (by norm_num [Ucf])⟩

/-- C2 fails as stated: at the conserved state `Ucf` (`ρ = 1`, `M = 0`,
`E = 3`, `By = Bz = 0`) with `Bx = 2` and `γ = 2`, the code returns
`cfast = 2` while the spec's formula (discriminant `- 4a^2*b_perp^2`)
gives `sqrt 6`. -/
theorem cfast_spec_formula_counterexample :
    0 < Ucf.d ∧ cfast_adb_mhd 2 1 Ucf 2 ≠ fast_speed_spec_mhd 2 1 Ucf 2 := by
  have h2 : Real.sqrt 2 ≠ 0 := by positivity
  have h4 : Real.sqrt 4 = 2 := by
    rw [show (4:ℝ) = 2^2 by norm_num]
    exact Real.sqrt_sq (by norm_num)
  have h36 : Real.sqrt 36 = 6 := by
    rw [show (36:ℝ) = 6^2 by norm_num]
    exact Real.sqrt_sq (by norm_num)
  have hL : cfast_adb_mhd 2 1 Ucf 2 = 2 := by
    simp only [cfast_adb_mhd, Ucf]
    norm_num
    rw [h4, show (6:ℝ) + 2 = 2 * 4 by norm_num,
        Real.sqrt_mul (by norm_num : (0:ℝ) ≤ 2), h4]
    exact inv_mul_cancel_left₀ h2 2
  have hR : fast_speed_spec_mhd 2 1 Ucf 2 = Real.sqrt 6 := by
    simp only [fast_speed_spec_mhd, Ucf]
    norm_num
    rw [h36, show (6:ℝ) + 6 = 2 * 6 by norm_num,
        Real.sqrt_mul (by norm_num : (0:ℝ) ≤ 2)]
    exact inv_mul_cancel_left₀ h2 _
  refine ⟨by norm_num [Ucf], ?_⟩
  rw [hL, hR]
  intro heq
  have h6 : (Real.sqrt 6)^2 = 6 := Real.sq_sqrt (by norm_num)
  rw [← heq] at h6
  norm_num at h6
